import Mathlib

/-!
Shallow embedding of the PokerFileSorter repository
(src/pkrfilesorter/sorters/abstract.py and src/pkrfilesorter/s3_file_sorter.py).

Filenames and keys are modelled as Lists of characters.  The three `re`
patterns of the classifiers are embedded as executable searchers that follow
Python re.search semantics for these concrete patterns: leftmost starting
position wins, and within a starting position greedy quantifiers take the
longest extension for which the rest of the pattern still matches.
-/

/-- Shorthand turning a string literal into the List Char the model works on. -/
def chars (s : String) : List Char := s.toList

/-- Python whitespace class (the characters str.strip and the regex class
match for the ASCII inputs this repository handles). -/
def isSpaceChar (c : Char) : Bool :=
  c == ' ' || c == '\t' || c == '\n' || c == '\r' || c == '\x0b' || c == '\x0c'

/-- Python word-character class (ASCII part): letters, digits and underscore. -/
def isWordChar (c : Char) : Bool :=
  c.isAlphanum || c == '_'

/-- A character of the cash-game pattern's bracket class: word or space. -/
def isWordSpace (c : Char) : Bool :=
  isWordChar c || isSpaceChar c

/-- needle begins hay (character by character). -/
def beginsWith : List Char → List Char → Bool
  | [], _ => true
  | _ :: _, [] => false
  | a :: as, b :: bs => a == b && beginsWith as bs

/-- Python substring containment: needle occurs somewhere in hay. -/
def containsSub (needle : List Char) : List Char → Bool
  | [] => needle.isEmpty
  | c :: rest => beginsWith needle (c :: rest) || containsSub needle rest

/-- Python str.strip: drop leading and trailing whitespace. -/
def pyStrip (s : List Char) : List Char :=
  ((s.dropWhile isSpaceChar).reverse.dropWhile isSpaceChar).reverse

/-- Python str.replace of a single space by an underscore, applied everywhere. -/
def pyReplaceSpaces (s : List Char) : List Char :=
  s.map (fun c => if c == ' ' then '_' else c)

/-- Python truthiness negation on the tri-state is_tournament value:
not None = True, not False = True, not True = False. -/
def pyNot : Option Bool → Bool
  | some true => false
  | _ => true

/-- os.path.join for the POSIX flavour used by the repository. -/
def pyJoin (root filename : List Char) : List Char :=
  if filename.head? == some '/' then filename
  else if root.isEmpty then filename
  else if root.getLast? == some '/' then root ++ filename
  else root ++ '/' :: filename

/-!  Pattern 1, from abstract.py line 76 and s3_file_sorter.py line 54:
tournament ids written as a parenthesized digit run followed by an
underscore.  The digit run is greedy but must stop at the closing
parenthesis, so the maximal digit run is the only candidate. -/

/-- Attempt the tournament pattern anchored at the head of the list,
returning the captured digit run. -/
def tournamentMatchAt : List Char → Option (List Char)
  | [] => none
  | c :: rest =>
    if c == '(' then
      match rest.takeWhile Char.isDigit, rest.drop (rest.takeWhile Char.isDigit).length with
      | [], _ => none
      | _ :: _, c1 :: c2 :: _ =>
        if c1 == ')' && c2 == '_' then some (rest.takeWhile Char.isDigit) else none
      | _, _ => none
    else none

/-- re.search for the tournament pattern: scan starting positions left to
right, return the first anchored match. -/
def tournamentSearch : List Char → Option (List Char)
  | [] => none
  | c :: rest =>
    match tournamentMatchAt (c :: rest) with
    | some ds => some ds
    | none => tournamentSearch rest

/-!  Pattern 2, abstract.py line 77 and s3_file_sorter.py line 55: an
underscore, a nonempty greedy run of word or space characters (group 1), two
digits (group 2) and an underscore.  Greedy backtracking means: at a given
start, group 1 takes the largest length m for which two digits and an
underscore still follow. -/

/-- Whether splitting the tail t after m group-1 characters completes the
cash-game pattern: m nonempty word/space characters, then two digits, then
an underscore. -/
def cashSplitOk (t : List Char) (m : Nat) : Bool :=
  1 ≤ m && (t.take m).all isWordSpace &&
    match t.drop m with
    | d1 :: d2 :: c :: _ => d1.isDigit && d2.isDigit && c == '_'
    | _ => false

/-- Attempt the cash-game pattern anchored at the head of the list,
returning (group 1, group 2). -/
def cashMatchAt : List Char → Option (List Char × List Char)
  | [] => none
  | c :: t =>
    if c == '_' then
      match (List.range (t.length + 1)).reverse.find? (fun m => cashSplitOk t m) with
      | some m => some (t.take m, (t.drop m).take 2)
      | none => none
    else none

/-- re.search for the cash-game pattern. -/
def cashGameSearch : List Char → Option (List Char × List Char)
  | [] => none
  | c :: rest =>
    match cashMatchAt (c :: rest) with
    | some r => some r
    | none => cashGameSearch rest

/-!  Pattern 3, abstract.py line 78 only: eight digits (three fixed-width
digit groups), an underscore, then a nonempty greedy run of ASCII letters
(group 4, the only group the code uses). -/

/-- Attempt the legacy cash-game pattern anchored at the head, returning
group 4. -/
def cash2MatchAt (s : List Char) : Option (List Char) :=
  if (s.take 8).length == 8 && (s.take 8).all Char.isDigit then
    match s.drop 8 with
    | c :: rest =>
      if c == '_' then
        match rest.takeWhile Char.isAlpha with
        | [] => none
        | l :: ls => some (l :: ls)
      else none
    | [] => none
  else none

/-- re.search for the legacy cash-game pattern. -/
def cash2Search : List Char → Option (List Char)
  | [] => none
  | c :: rest =>
    match cash2MatchAt (c :: rest) with
    | some r => some r
    | none => cash2Search rest

/-!  The classifier of abstract.py, get_info_from_filename (lines 71-114). -/

/-- date_str and date_path of abstract.py lines 79-80 (and the identical
s3_file_sorter.py lines 56-57): the segment before the first underscore,
sliced [:4], [4:6], [6:] and joined with slashes. -/
def datePathOf (filename : List Char) : List Char :=
  let date_str := filename.takeWhile (fun c => c != '_')
  date_str.take 4 ++ '/' :: (date_str.drop 4).take 2 ++ '/' :: date_str.drop 6

/-- file_type of abstract.py line 81: summaries/raw when the name contains
"summary", else histories/raw. -/
def fileTypeOf (filename : List Char) : List Char :=
  if containsSub (chars "summary") filename then chars "summaries/raw"
  else chars "histories/raw"

/-- The metadata dictionary built by abstract.py lines 105-113. -/
structure FileInfo where
  date : List Char
  raw_key_suffix : Option (List Char)
  is_tournament : Option Bool
  is_play : Bool
  is_omaha : Bool
  is_positioning : Bool
  is_error : Bool
deriving DecidableEq, Repr

/-- abstract.py get_info_from_filename.  The source computes all three
searches, the three substring flags and the date eagerly, then branches
if/elif/elif/else on the matches; every arm below writes the is_error
formula of line 112 with the is_tournament value that arm assigned. -/
def get_info_from_filename (filename : List Char) : FileInfo :=
  let date_path := datePathOf filename
  let file_type := fileTypeOf filename
  let is_play := containsSub (chars "play") filename
  let is_omaha := containsSub (chars "omaha") filename || containsSub (chars "Omaha") filename
  let is_positioning := containsSub (chars "positioning") filename
  match tournamentSearch filename with
  | some tournament_id =>
    { date := date_path
      raw_key_suffix := some (file_type ++ '/' :: date_path ++ '/' :: tournament_id ++ chars ".txt")
      is_tournament := some true
      is_play := is_play, is_omaha := is_omaha, is_positioning := is_positioning
      is_error := is_play || is_omaha || is_positioning || pyNot (some true) }
  | none =>
    match cashGameSearch filename with
    | some (g1, g2) =>
      let table_name := pyReplaceSpaces (pyStrip g1)
      { date := date_path
        raw_key_suffix :=
          some (file_type ++ '/' :: date_path ++ chars "/cash/" ++ table_name ++ '/' :: g2 ++ chars ".txt")
        is_tournament := some false
        is_play := is_play, is_omaha := is_omaha, is_positioning := is_positioning
        is_error := is_play || is_omaha || is_positioning || pyNot (some false) }
    | none =>
      match cash2Search filename with
      | some g4 =>
        let table_name := pyStrip g4
        { date := date_path
          raw_key_suffix :=
            some (file_type ++ '/' :: date_path ++ chars "/cash/" ++ table_name ++ chars "/000000000.txt")
          is_tournament := some false
          is_play := is_play, is_omaha := is_omaha, is_positioning := is_positioning
          is_error := is_play || is_omaha || is_positioning || pyNot (some false) }
      | none =>
        { date := date_path
          raw_key_suffix := none
          is_tournament := none
          is_play := is_play, is_omaha := is_omaha, is_positioning := is_positioning
          is_error := is_play || is_omaha || is_positioning || pyNot none }

/-!  The source-repair pass, abstract.py correct_source_files (lines 48-60)
and its verbatim copy s3_file_sorter.py lines 26-38: files whose name starts
with "summary" are renamed by dropping the first seven characters. -/

/-- A file discovered by the source scan: root directory plus filename. -/
structure FileDict where
  root : List Char
  filename : List Char
deriving DecidableEq, Repr

/-- The new name correct_source_files gives one file: names starting with
"summary" lose their first seven characters, others are untouched. -/
def correctFilename (filename : List Char) : List Char :=
  if beginsWith (chars "summary") filename then filename.drop 7 else filename

/-- correct_source_files over a scan result: every corrupted file is renamed
in place (os.replace), the rest are left alone. -/
def correct_source_files (files : List FileDict) : List FileDict :=
  files.map (fun f => { f with filename := correctFilename f.filename })

/-!  The orchestrator state.  The abstract class leaves get_raw_key,
check_raw_key_exists and write_source_file_to_raw_file abstract, so the
model takes the key construction as a function parameter and represents the
destination as a set of present keys plus logs of the existence probes and
writes performed.  Ledger files are Option lists: none models a file that
does not exist on disk, and reading it raises. -/

/-- Errors the embedded filesystem operations can raise. -/
inductive FsError
  | fileNotFound
deriving DecidableEq, Repr

/-- Reading a ledger file: open(..., "r") raises when the file is absent,
otherwise yields its lines. -/
def readLedger : Option (List (List Char)) → Except FsError (List (List Char))
  | none => .error .fileNotFound
  | some lines => .ok lines

/-- State of an AbstractFileSorter run: the two ledger files, the keys
present at the destination, and logs of the writes and existence probes. -/
structure SorterState where
  error_files : Option (List (List Char))
  sorted_files : Option (List (List Char))
  raw_keys : List (List Char)
  written : List (List Char × List Char)
  checked : List (List Char)
deriving DecidableEq, Repr

/-- abstract.py get_error_files (lines 123-130). -/
def get_error_files (st : SorterState) : Except FsError (List (List Char)) :=
  readLedger st.error_files

/-- abstract.py get_sorted_files (lines 148-155). -/
def get_sorted_files (st : SorterState) : Except FsError (List (List Char)) :=
  readLedger st.sorted_files

/-- abstract.py add_to_error_files (lines 132-139): open for append creates
the file when absent, then writes one more line. -/
def add_to_error_files (st : SorterState) (source_key : List Char) : SorterState :=
  { st with error_files := some (st.error_files.getD [] ++ [source_key]) }

/-- abstract.py add_to_sorted_files (lines 157-164). -/
def add_to_sorted_files (st : SorterState) (source_key : List Char) : SorterState :=
  { st with sorted_files := some (st.sorted_files.getD [] ++ [source_key]) }

/-- abstract.py reset_sorted_files (lines 166-173): open for write truncates
(and creates the file when absent). -/
def reset_sorted_files (st : SorterState) : SorterState :=
  { st with sorted_files := some [] }

/-- abstract.py sort_file (lines 182-194).  get_raw_key is the abstract key
constructor of the concrete subclass.  The Python body reads the error
ledger once per condition; the reads do not change the file, so one read
serves both conditions here.  write_source_file_to_raw_file is modelled by
logging the (source_key, raw_key) pair. -/
def sort_file (get_raw_key : Option (List Char) → List Char)
    (st : SorterState) (file : FileDict) : Except FsError SorterState :=
  let file_info := get_info_from_filename file.filename
  let source_key := pyJoin file.root file.filename
  let raw_key := get_raw_key file_info.raw_key_suffix
  let is_error_file := file_info.is_error
  match get_error_files st with
  | .error e => .error e
  | .ok error_files =>
    if !error_files.contains source_key && !is_error_file then
      .ok { st with written := st.written ++ [(source_key, raw_key)] }
    else if !error_files.contains source_key && is_error_file then
      .ok (add_to_error_files st source_key)
    else
      .ok st

/-- abstract.py sort_new_file (lines 196-206).  The Python if evaluates the
sorted-files read first; when the key is absent it probes the destination
(logged into checked).  When the probe finds the key, the elif re-reads the
unchanged ledger and probes the destination a second time before appending
to the sorted ledger.  When the first conjunct is false both conditions
short-circuit without touching the destination. -/
def sort_new_file (get_raw_key : Option (List Char) → List Char)
    (st : SorterState) (file : FileDict) : Except FsError SorterState :=
  let file_info := get_info_from_filename file.filename
  let source_key := pyJoin file.root file.filename
  let raw_key := get_raw_key file_info.raw_key_suffix
  match get_sorted_files st with
  | .error e => .error e
  | .ok sorted_files =>
    if !sorted_files.contains source_key then
      let st1 := { st with checked := st.checked ++ [raw_key] }
      if !st1.raw_keys.contains raw_key then
        sort_file get_raw_key st1 file
      else
        let st2 := { st1 with checked := st1.checked ++ [raw_key] }
        .ok (add_to_sorted_files st2 source_key)
    else
      .ok st

/-- abstract.py sort_files (lines 208-219): after the repair pass and the
session-ledger reset, one task is submitted per discovered file, in the
order of the reversed enumeration.  This is the list of per-file tasks. -/
def sort_files_tasks (files : List FileDict) : List FileDict :=
  files.reverse

/-- abstract.py sort_new_files (lines 221-228): same enumeration, one
sort_new_file task per element. -/
def sort_new_files_tasks (files : List FileDict) : List FileDict :=
  files.reverse

/-!  The S3 module, s3_file_sorter.py.  Its classifier differs from the
abstract one: only two patterns, a "data/" key prefix, "summaries" without
"/raw", and only the lowercase "omaha" substring test. -/

/-- file_type of s3_file_sorter.py line 58. -/
def s3FileTypeOf (filename : List Char) : List Char :=
  if containsSub (chars "summary") filename then chars "summaries"
  else chars "histories/raw"

/-- The metadata dictionary of s3_file_sorter.py lines 75-82. -/
structure S3Info where
  date : List Char
  destination_key : Option (List Char)
  is_tournament : Option Bool
  is_play : Bool
  is_omaha : Bool
  is_positioning : Bool
deriving DecidableEq, Repr

/-- s3_file_sorter.py get_info_from_filename (lines 49-83). -/
def s3_get_info_from_filename (filename : List Char) : S3Info :=
  let date_path := datePathOf filename
  let file_type := s3FileTypeOf filename
  let is_play := containsSub (chars "play") filename
  let is_omaha := containsSub (chars "omaha") filename
  let is_positioning := containsSub (chars "positioning") filename
  match tournamentSearch filename with
  | some tournament_id =>
    { date := date_path
      destination_key :=
        some (chars "data/" ++ file_type ++ '/' :: date_path ++ '/' :: tournament_id ++ chars ".txt")
      is_tournament := some true
      is_play := is_play, is_omaha := is_omaha, is_positioning := is_positioning }
  | none =>
    match cashGameSearch filename with
    | some (g1, g2) =>
      let table_name := pyReplaceSpaces (pyStrip g1)
      { date := date_path
        destination_key :=
          some (chars "data/" ++ file_type ++ '/' :: date_path ++ chars "/cash/" ++ table_name
            ++ '/' :: g2 ++ chars ".txt")
        is_tournament := some false
        is_play := is_play, is_omaha := is_omaha, is_positioning := is_positioning }
    | none =>
      { date := date_path
        destination_key := none
        is_tournament := none
        is_play := is_play, is_omaha := is_omaha, is_positioning := is_positioning }

/-- State of an S3FileSorter run: the two ledger files, the set of keys in
the destination bucket, and the log of successful uploads. -/
structure S3State where
  uploaded_files : Option (List (List Char))
  error_files : Option (List (List Char))
  bucket : List (List Char)
  uploads : List (List Char × List Char)
deriving DecidableEq, Repr

/-- Outcome of one s3.upload_file call: success, or one of the two
anticipated exceptions the code catches. -/
inductive UploadOutcome
  | success
  | noCredentials
  | clientError
deriving DecidableEq, Repr

/-- s3_file_sorter.py check_file_exists (lines 85-93): a head_object probe;
the branch that reaches it always holds a concrete key, so the none case is
unreachable and modelled as absent. -/
def s3_check_file_exists (st : S3State) (key : Option (List Char)) : Bool :=
  match key with
  | some k => st.bucket.contains k
  | none => false

/-- s3_file_sorter.py add_to_uploaded_files (lines 113-120). -/
def s3_add_to_uploaded_files (st : S3State) (filename : List Char) : S3State :=
  { st with uploaded_files := some (st.uploaded_files.getD [] ++ [filename]) }

/-- s3_file_sorter.py add_to_error_files (lines 122-129). -/
def s3_add_to_error_files (st : S3State) (filename : List Char) : S3State :=
  { st with error_files := some (st.error_files.getD [] ++ [filename]) }

/-- s3_file_sorter.py upload_file (lines 131-160).  The uploaded ledger is
read only when check_exists is true; the error ledger is always read.  The
outcome parameter stands for what the s3.upload_file call would do when
reached; the two anticipated exceptions are caught and leave the state as
it was, a successful call is logged and followed by the uploaded-ledger
append. -/
def upload_file (st : S3State) (file : FileDict) (check_exists : Bool)
    (outcome : UploadOutcome) : Except FsError S3State :=
  let file_info := s3_get_info_from_filename file.filename
  let source_path := pyJoin file.root file.filename
  let destination_key := file_info.destination_key
  let filename := file.filename
  match (if check_exists then readLedger st.uploaded_files else .ok []) with
  | .error e => .error e
  | .ok uploaded_files =>
    match readLedger st.error_files with
    | .error e => .error e
    | .ok error_files =>
      let other_than_tournament := pyNot file_info.is_tournament
      let error_condition :=
        file_info.is_play || file_info.is_omaha || file_info.is_positioning || other_than_tournament
      let copy_condition := !(uploaded_files ++ error_files).contains filename
      if copy_condition then
        if error_condition then
          .ok (s3_add_to_error_files st filename)
        else if s3_check_file_exists st destination_key && check_exists then
          .ok (s3_add_to_uploaded_files st filename)
        else
          match outcome with
          | .success =>
            let st1 := { st with uploads := st.uploads ++ [(source_path, destination_key.getD [])] }
            .ok (s3_add_to_uploaded_files st1 filename)
          | .noCredentials => .ok st
          | .clientError => .ok st
      else
        .ok st

/-- s3_file_sorter.py upload_files (lines 174-184): the repaired enumeration
is reversed and truncated to its first ten entries; one reupload_file task
(upload_file with check_exists false) is submitted per remaining entry. -/
def upload_files_tasks (files : List FileDict) : List FileDict :=
  files.reverse.take 10

/-- s3_file_sorter.py upload_new_files (lines 186-193): same truncated
enumeration, one upload_new_file task (check_exists true) per entry. -/
def upload_new_files_tasks (files : List FileDict) : List FileDict :=
  files.reverse.take 10

/-!  Concrete instances used by the orchestrator witnesses: a sample
get_raw_key in the style of the S3 backend, and some small states. -/

/-- A sample key constructor for the abstract get_raw_key hook. -/
def gKey : Option (List Char) → List Char :=
  fun o => chars "data/" ++ o.getD []

/-- A state whose ledgers exist but are empty and whose destination is
empty. -/
def stEmpty : SorterState :=
  { error_files := some [], sorted_files := some [], raw_keys := [], written := [], checked := [] }

/-- A state whose destination already holds the raw key of the cash-game
file used in the C6 witness. -/
def stGoodTable : SorterState :=
  { error_files := some [], sorted_files := some []
    raw_keys := [chars "data/histories/raw/2024/03/01/cash/GoodTable/07.txt"]
    written := [], checked := [] }

-- Results of the embedded operations are compared by a derived decidable
-- equality.
deriving instance DecidableEq for Except

/-- The file of the C7 counterexample: an omaha filename matching the
tournament pattern. -/
def omahaFile : FileDict :=
  { root := chars "hist", filename := chars "20240115_omaha_(987654321)_HandHistory.txt" }

/-- A state whose destination already holds the omaha file's raw key. -/
def stOmaha : SorterState :=
  { error_files := some [], sorted_files := some []
    raw_keys := [chars "data/histories/raw/2024/01/15/987654321.txt"]
    written := [], checked := [] }

/-- The state sort_new_file produces on the C7 counterexample: the
destination was probed twice and the key went to the session-sorted ledger,
while the error ledger stayed empty. -/
def stOmahaResult : SorterState :=
  { error_files := some [], sorted_files :=
      some [chars "hist/20240115_omaha_(987654321)_HandHistory.txt"]
    raw_keys := [chars "data/histories/raw/2024/01/15/987654321.txt"]
    written := []
    checked := [chars "data/histories/raw/2024/01/15/987654321.txt",
                chars "data/histories/raw/2024/01/15/987654321.txt"] }

/-- Eleven distinct discovered files, one more than the S3 batch slice. -/
def elevenFiles : List FileDict :=
  (List.range 11).map (fun i => { root := [], filename := Char.ofNat (65 + i) :: chars ".txt" })

/-- Two discovered files, for the C8 witness. -/
def twoFiles : List FileDict :=
  [{ root := [], filename := chars "a.txt" }, { root := [], filename := chars "b.txt" }]

/-- The S3 state of the C9 witness: both ledgers exist and are empty, the
bucket is empty. -/
def s3StEmpty : S3State :=
  { uploaded_files := some [], error_files := some [], bucket := [], uploads := [] }

/-- A state with no ledger file on disk. -/
def stNoLedgers : SorterState :=
  { error_files := none, sorted_files := none, raw_keys := [], written := [], checked := [] }

/-!  Helper lemmas about the classifier. -/

/-- The date and the three substring flags are computed before the pattern
branch and are the same in every arm of get_info_from_filename. -/
theorem get_info_fixed_fields (name : List Char) :
    (get_info_from_filename name).date = datePathOf name
    ∧ (get_info_from_filename name).is_play = containsSub (chars "play") name
    ∧ (get_info_from_filename name).is_omaha
        = (containsSub (chars "omaha") name || containsSub (chars "Omaha") name)
    ∧ (get_info_from_filename name).is_positioning = containsSub (chars "positioning") name := by
  unfold get_info_from_filename
  rcases tournamentSearch name with _ | tid
  · rcases cashGameSearch name with _ | ⟨g1, g2⟩
    · rcases cash2Search name with _ | g4
      · exact ⟨rfl, rfl, rfl, rfl⟩
      · exact ⟨rfl, rfl, rfl, rfl⟩
    · exact ⟨rfl, rfl, rfl, rfl⟩
  · exact ⟨rfl, rfl, rfl, rfl⟩

/-- The tournament arm of get_info_from_filename. -/
theorem get_info_tournament (name tid : List Char)
    (h : tournamentSearch name = some tid) :
    (get_info_from_filename name).is_tournament = some true
    ∧ (get_info_from_filename name).raw_key_suffix
        = some (fileTypeOf name ++ '/' :: datePathOf name ++ '/' :: tid ++ chars ".txt")
    ∧ (get_info_from_filename name).is_error
        = ((get_info_from_filename name).is_play || (get_info_from_filename name).is_omaha
            || (get_info_from_filename name).is_positioning) := by
  unfold get_info_from_filename
  rw [h]
  refine ⟨rfl, rfl, ?_⟩
  simp [pyNot]

/-- The cash-game arm of get_info_from_filename. -/
theorem get_info_cash (name g1 g2 : List Char)
    (h1 : tournamentSearch name = none)
    (h2 : cashGameSearch name = some (g1, g2)) :
    (get_info_from_filename name).is_tournament = some false
    ∧ (get_info_from_filename name).raw_key_suffix
        = some (fileTypeOf name ++ '/' :: datePathOf name ++ chars "/cash/"
            ++ pyReplaceSpaces (pyStrip g1) ++ '/' :: g2 ++ chars ".txt")
    ∧ (get_info_from_filename name).is_error = true := by
  unfold get_info_from_filename
  rw [h1, h2]
  refine ⟨rfl, rfl, ?_⟩
  simp [pyNot]

/-- The legacy cash-game arm of get_info_from_filename. -/
theorem get_info_cash2 (name : List Char) (g4 : List Char)
    (h1 : tournamentSearch name = none)
    (h2 : cashGameSearch name = none)
    (h3 : cash2Search name = some g4) :
    (get_info_from_filename name).is_tournament = some false
    ∧ (get_info_from_filename name).raw_key_suffix
        = some (fileTypeOf name ++ '/' :: datePathOf name ++ chars "/cash/"
            ++ pyStrip g4 ++ chars "/000000000.txt")
    ∧ (get_info_from_filename name).is_error = true := by
  unfold get_info_from_filename
  rw [h1, h2, h3]
  refine ⟨rfl, rfl, ?_⟩
  simp [pyNot]

/-- The unmatched arm of get_info_from_filename. -/
theorem get_info_unmatched (name : List Char)
    (h1 : tournamentSearch name = none)
    (h2 : cashGameSearch name = none)
    (h3 : cash2Search name = none) :
    (get_info_from_filename name).is_tournament = none
    ∧ (get_info_from_filename name).raw_key_suffix = none
    ∧ (get_info_from_filename name).is_error = true := by
  unfold get_info_from_filename
  rw [h1, h2, h3]
  refine ⟨rfl, rfl, ?_⟩
  simp [pyNot]

/-- A filename containing omaha in either casing is an error file in every
classification arm. -/
theorem is_error_of_omaha (name : List Char)
    (h : (containsSub (chars "omaha") name || containsSub (chars "Omaha") name) = true) :
    (get_info_from_filename name).is_error = true := by
  have homaha : (get_info_from_filename name).is_omaha = true :=
    (get_info_fixed_fields name).2.2.1.trans h
  unfold get_info_from_filename at homaha ⊢
  rcases tournamentSearch name with _ | tid
  · rcases cashGameSearch name with _ | ⟨g1, g2⟩
    · rcases cash2Search name with _ | g4
      · simp_all [pyNot]
      · simp_all [pyNot]
    · simp_all [pyNot]
  · simp_all [pyNot]

/-!  Helper lemmas about sort_file and sort_new_file. -/

/-- sort_file when the source key is already in the error ledger: no write,
no append, the state is returned untouched. -/
theorem sort_file_skip (g : Option (List Char) → List Char) (st : SorterState)
    (f : FileDict) (E : List (List Char)) (hE : st.error_files = some E)
    (hmem : E.contains (pyJoin f.root f.filename) = true) :
    sort_file g st f = .ok st := by
  have hmem' : pyJoin f.root f.filename ∈ E := by simpa using hmem
  unfold sort_file get_error_files readLedger
  rw [hE]
  simp [hmem']

/-- sort_file on a fresh error file: the source key is appended to the error
ledger and nothing is written to the destination. -/
theorem sort_file_error_case (g : Option (List Char) → List Char) (st : SorterState)
    (f : FileDict) (E : List (List Char)) (hE : st.error_files = some E)
    (hmem : E.contains (pyJoin f.root f.filename) = false)
    (herr : (get_info_from_filename f.filename).is_error = true) :
    sort_file g st f
      = .ok { st with error_files := some (E ++ [pyJoin f.root f.filename]) } := by
  have hmem' : pyJoin f.root f.filename ∉ E := by simpa using hmem
  unfold sort_file get_error_files readLedger
  rw [hE]
  simp [hmem', herr, add_to_error_files, hE]

/-- sort_file on a fresh non-error file: the write is invoked and neither
ledger changes. -/
theorem sort_file_write_case (g : Option (List Char) → List Char) (st : SorterState)
    (f : FileDict) (E : List (List Char)) (hE : st.error_files = some E)
    (hmem : E.contains (pyJoin f.root f.filename) = false)
    (herr : (get_info_from_filename f.filename).is_error = false) :
    sort_file g st f
      = .ok { st with written := st.written
          ++ [(pyJoin f.root f.filename,
               g (get_info_from_filename f.filename).raw_key_suffix)] } := by
  have hmem' : pyJoin f.root f.filename ∉ E := by simpa using hmem
  unfold sort_file get_error_files readLedger
  rw [hE]
  simp [hmem', herr]

/-- sort_new_file when the source key is already in the session-sorted
ledger: no destination probe, no transfer, no ledger change. -/
theorem sort_new_file_skip (g : Option (List Char) → List Char) (st : SorterState)
    (f : FileDict) (S : List (List Char)) (hS : st.sorted_files = some S)
    (hmem : S.contains (pyJoin f.root f.filename) = true) :
    sort_new_file g st f = .ok st := by
  have hmem' : pyJoin f.root f.filename ∈ S := by simpa using hmem
  unfold sort_new_file get_sorted_files readLedger
  rw [hS]
  simp [hmem']

/-- sort_new_file when the key is fresh but the destination key already
exists: the destination is probed (twice, once per condition), the source
key is appended to the session-sorted ledger, and nothing is written. -/
theorem sort_new_file_reconcile (g : Option (List Char) → List Char) (st : SorterState)
    (f : FileDict) (S : List (List Char)) (hS : st.sorted_files = some S)
    (hmem : S.contains (pyJoin f.root f.filename) = false)
    (hex : st.raw_keys.contains (g (get_info_from_filename f.filename).raw_key_suffix) = true) :
    sort_new_file g st f
      = .ok { st with
          checked := st.checked
            ++ [g (get_info_from_filename f.filename).raw_key_suffix,
                g (get_info_from_filename f.filename).raw_key_suffix],
          sorted_files := some (S ++ [pyJoin f.root f.filename]) } := by
  have hmem' : pyJoin f.root f.filename ∉ S := by simpa using hmem
  have hex' : g (get_info_from_filename f.filename).raw_key_suffix ∈ st.raw_keys := by
    simpa using hex
  unfold sort_new_file get_sorted_files readLedger
  rw [hS]
  simp [hmem', hex', add_to_sorted_files, hS]

/-- sort_new_file when the key is fresh and the destination key is absent:
one destination probe is logged and Pipeline A runs on the file. -/
theorem sort_new_file_delegate (g : Option (List Char) → List Char) (st : SorterState)
    (f : FileDict) (S : List (List Char)) (hS : st.sorted_files = some S)
    (hmem : S.contains (pyJoin f.root f.filename) = false)
    (hex : st.raw_keys.contains (g (get_info_from_filename f.filename).raw_key_suffix) = false) :
    sort_new_file g st f
      = sort_file g
          { st with checked := st.checked
              ++ [g (get_info_from_filename f.filename).raw_key_suffix] } f := by
  have hmem' : pyJoin f.root f.filename ∉ S := by simpa using hmem
  have hex' : g (get_info_from_filename f.filename).raw_key_suffix ∉ st.raw_keys := by
    simpa using hex
  unfold sort_new_file get_sorted_files readLedger
  rw [hS]
  simp [hmem', hex']

/-- An anchored tournament match captures a nonempty run of digits. -/
theorem tournamentMatchAt_digits (s tid : List Char)
    (h : tournamentMatchAt s = some tid) :
    tid ≠ [] ∧ tid.all Char.isDigit = true := by
  cases s with
  | nil => simp [tournamentMatchAt] at h
  | cons c rest =>
    simp only [tournamentMatchAt] at h
    split at h
    · split at h
      · simp at h
      · split at h
        · obtain rfl : rest.takeWhile Char.isDigit = tid := by simpa using h
          refine ⟨by simp_all, ?_⟩
          exact List.all_eq_true.2 fun a ha => List.mem_takeWhile_imp ha
        · simp at h
      · simp at h
    · simp at h

/-- The tournament search captures a nonempty run of digits. -/
theorem tournamentSearch_digits (s tid : List Char)
    (h : tournamentSearch s = some tid) :
    tid ≠ [] ∧ tid.all Char.isDigit = true := by
  induction s with
  | nil => simp [tournamentSearch] at h
  | cons c rest ih =>
    unfold tournamentSearch at h
    rcases hm : tournamentMatchAt (c :: rest) with _ | ds
    · rw [hm] at h
      exact ih h
    · rw [hm] at h
      obtain rfl : ds = tid := by simpa using h
      exact tournamentMatchAt_digits (c :: rest) ds hm

/-!  Claim theorems. -/

/-- C1, counterexample: the filename 20240115_MyTable05_HandHistory.txt
matches the cash-game named pattern and none of the other patterns, contains
none of the substrings play, omaha, Omaha, positioning, yet
get_info_from_filename marks it an error file: is_error is computed as
any(is_play, is_omaha, is_positioning, not is_tournament), and the final
disjunct is true for every cash game. -/
theorem c1_counterexample :
    tournamentSearch (chars "20240115_MyTable05_HandHistory.txt") = none
    ∧ (cashGameSearch (chars "20240115_MyTable05_HandHistory.txt")).isSome = true
    ∧ containsSub (chars "play") (chars "20240115_MyTable05_HandHistory.txt") = false
    ∧ containsSub (chars "omaha") (chars "20240115_MyTable05_HandHistory.txt") = false
    ∧ containsSub (chars "Omaha") (chars "20240115_MyTable05_HandHistory.txt") = false
    ∧ containsSub (chars "positioning") (chars "20240115_MyTable05_HandHistory.txt") = false
    ∧ (get_info_from_filename (chars "20240115_MyTable05_HandHistory.txt")).is_tournament
        = some false
    ∧ (get_info_from_filename (chars "20240115_MyTable05_HandHistory.txt")).is_error = true := by
  decide

/-- C1 (corrected): for every filename classified as a cash game (a
cash-game pattern matches and the tournament pattern does not) containing
none of the four policy substrings, the three substring flags are false,
but the file IS an error file: is_error's fourth disjunct is
not is_tournament, which holds for every cash game. -/
theorem cash_clean_file_flags (name : List Char)
    (ht : tournamentSearch name = none)
    (hc : (cashGameSearch name).isSome = true ∨ (cash2Search name).isSome = true)
    (hp : containsSub (chars "play") name = false)
    (ho1 : containsSub (chars "omaha") name = false)
    (ho2 : containsSub (chars "Omaha") name = false)
    (hpos : containsSub (chars "positioning") name = false) :
    (get_info_from_filename name).is_play = false
    ∧ (get_info_from_filename name).is_omaha = false
    ∧ (get_info_from_filename name).is_positioning = false
    ∧ (get_info_from_filename name).is_tournament = some false
    ∧ (get_info_from_filename name).is_error = true := by
  obtain ⟨hdate, hplay, homaha, hposi⟩ := get_info_fixed_fields name
  have key : (get_info_from_filename name).is_tournament = some false
      ∧ (get_info_from_filename name).is_error = true := by
    rcases hc with h | h
    · obtain ⟨⟨g1, g2⟩, hg⟩ := Option.isSome_iff_exists.1 h
      obtain ⟨a, b, c⟩ := get_info_cash name g1 g2 ht hg
      exact ⟨a, c⟩
    · rcases hcg : cashGameSearch name with _ | ⟨g1, g2⟩
      · obtain ⟨g4, hg⟩ := Option.isSome_iff_exists.1 h
        obtain ⟨a, b, c⟩ := get_info_cash2 name g4 ht hcg hg
        exact ⟨a, c⟩
      · obtain ⟨a, b, c⟩ := get_info_cash name g1 g2 ht hcg
        exact ⟨a, c⟩
  refine ⟨by rw [hplay, hp], by rw [homaha, ho1, ho2]; rfl, by rw [hposi, hpos], key.1, key.2⟩

/-- C1, witness for the amended claim at a concrete cash-game filename. -/
theorem cash_clean_file_flags_witness :
    tournamentSearch (chars "20240116_Nice_Table42_Hand.txt") = none
    ∧ ((get_info_from_filename (chars "20240116_Nice_Table42_Hand.txt")).is_play = false
        ∧ (get_info_from_filename (chars "20240116_Nice_Table42_Hand.txt")).is_omaha = false
        ∧ (get_info_from_filename (chars "20240116_Nice_Table42_Hand.txt")).is_positioning = false
        ∧ (get_info_from_filename (chars "20240116_Nice_Table42_Hand.txt")).is_tournament
            = some false
        ∧ (get_info_from_filename (chars "20240116_Nice_Table42_Hand.txt")).is_error = true) :=
  ⟨by decide,
   cash_clean_file_flags (chars "20240116_Nice_Table42_Hand.txt") (by decide)
     (Or.inl (by decide)) (by decide) (by decide) (by decide) (by decide)⟩

/-- C2 (confirmed): whenever the tournament pattern matches, the file is
classified as a tournament and the destination suffix is
file_type/date_path/id.txt with id exactly the captured digit run, which is
a nonempty all-digit string. -/
theorem tournament_classification (name tid : List Char)
    (h : tournamentSearch name = some tid) :
    (get_info_from_filename name).is_tournament = some true
    ∧ (get_info_from_filename name).date = datePathOf name
    ∧ (get_info_from_filename name).raw_key_suffix
        = some (fileTypeOf name ++ '/' :: datePathOf name ++ '/' :: tid ++ chars ".txt")
    ∧ tid ≠ [] ∧ tid.all Char.isDigit = true := by
  obtain ⟨h1, h2, _⟩ := get_info_tournament name tid h
  obtain ⟨hne, hdig⟩ := tournamentSearch_digits name tid h
  exact ⟨h1, (get_info_fixed_fields name).1, h2, hne, hdig⟩

/-- C2, witness: the spec's own example filename, with the date and suffix
evaluated to their literal values. -/
theorem tournament_classification_witness :
    tournamentSearch (chars "20240115_(987654321)_HandHistory.txt") = some (chars "987654321")
    ∧ datePathOf (chars "20240115_(987654321)_HandHistory.txt") = chars "2024/01/15"
    ∧ fileTypeOf (chars "20240115_(987654321)_HandHistory.txt") = chars "histories/raw"
    ∧ (get_info_from_filename (chars "20240115_(987654321)_HandHistory.txt")).raw_key_suffix
        = some (chars "histories/raw/2024/01/15/987654321.txt")
    ∧ ((get_info_from_filename (chars "20240115_(987654321)_HandHistory.txt")).is_tournament
          = some true
        ∧ (get_info_from_filename (chars "20240115_(987654321)_HandHistory.txt")).date
            = datePathOf (chars "20240115_(987654321)_HandHistory.txt")
        ∧ (get_info_from_filename (chars "20240115_(987654321)_HandHistory.txt")).raw_key_suffix
            = some (fileTypeOf (chars "20240115_(987654321)_HandHistory.txt")
                ++ '/' :: datePathOf (chars "20240115_(987654321)_HandHistory.txt")
                ++ '/' :: chars "987654321" ++ chars ".txt")
        ∧ chars "987654321" ≠ [] ∧ (chars "987654321").all Char.isDigit = true) :=
  ⟨by decide, by decide, by decide, by decide,
   tournament_classification (chars "20240115_(987654321)_HandHistory.txt")
     (chars "987654321") (by decide)⟩

/-- C3 (confirmed): the destination suffix is non-null iff one of the three
patterns matches; when none matches the suffix is null, the category is
unknown (is_tournament is None) and the file is an error file. -/
theorem suffix_iff_pattern (name : List Char) :
    ((get_info_from_filename name).raw_key_suffix ≠ none
      ↔ (tournamentSearch name ≠ none ∨ cashGameSearch name ≠ none ∨ cash2Search name ≠ none))
    ∧ (tournamentSearch name = none → cashGameSearch name = none → cash2Search name = none →
        (get_info_from_filename name).raw_key_suffix = none
        ∧ (get_info_from_filename name).is_tournament = none
        ∧ (get_info_from_filename name).is_error = true) := by
  constructor
  · constructor
    · intro hs
      by_contra hall
      push_neg at hall
      obtain ⟨h1, h2, h3⟩ := hall
      exact hs (get_info_unmatched name h1 h2 h3).2.1
    · intro hor
      rcases htour : tournamentSearch name with _ | tid
      · rcases hcash : cashGameSearch name with _ | ⟨g1, g2⟩
        · rcases hc2 : cash2Search name with _ | g4
          · rcases hor with h | h | h <;> simp_all
          · rw [(get_info_cash2 name g4 htour hcash hc2).2.1]
            simp
        · rw [(get_info_cash name g1 g2 htour hcash).2.1]
          simp
      · rw [(get_info_tournament name tid htour).2.1]
        simp
  · intro h1 h2 h3
    obtain ⟨a, b, c⟩ := get_info_unmatched name h1 h2 h3
    exact ⟨b, a, c⟩

/-- C3, witness at a filename matching none of the patterns. -/
theorem suffix_iff_pattern_witness :
    tournamentSearch (chars "notes.txt") = none
    ∧ cashGameSearch (chars "notes.txt") = none
    ∧ cash2Search (chars "notes.txt") = none
    ∧ ((get_info_from_filename (chars "notes.txt")).raw_key_suffix = none
        ∧ (get_info_from_filename (chars "notes.txt")).is_tournament = none
        ∧ (get_info_from_filename (chars "notes.txt")).is_error = true) :=
  ⟨by decide, by decide, by decide,
   (suffix_iff_pattern (chars "notes.txt")).2 (by decide) (by decide) (by decide)⟩

/-- C4, counterexample: correct_source_files only renames names that START
with "summary" (stripping seven characters), so the spec's example
20240115_summary_MyTable05_HandHistory.txt is not renamed at all; moreover
the claimed repaired name contains no "summary" substring, so it
classifies under histories/raw, not summaries/raw. -/
theorem c4_counterexample :
    correctFilename (chars "20240115_summary_MyTable05_HandHistory.txt")
      = chars "20240115_summary_MyTable05_HandHistory.txt"
    ∧ chars "20240115_summary_MyTable05_HandHistory.txt"
        ≠ chars "20240115_MyTable05_HandHistory.txt"
    ∧ (get_info_from_filename (chars "20240115_MyTable05_HandHistory.txt")).raw_key_suffix
        = some (chars "histories/raw/2024/01/15/cash/MyTable/05.txt")
    ∧ some (chars "histories/raw/2024/01/15/cash/MyTable/05.txt")
        ≠ some (chars "summaries/raw/2024/01/15/cash/MyTable/05.txt") := by
  decide

/-- C4 (corrected): the repair pass renames
summary20240115_MyTable05_HandHistory.txt (the "summary" prefix glued onto
the real name) to 20240115_MyTable05_HandHistory.txt, and the repaired name
classifies as a cash game with suffix
histories/raw/2024/01/15/cash/MyTable/05.txt. -/
theorem summary_prefix_repair :
    correctFilename (chars "summary20240115_MyTable05_HandHistory.txt")
      = chars "20240115_MyTable05_HandHistory.txt"
    ∧ correct_source_files
        [{ root := chars "src", filename := chars "summary20240115_MyTable05_HandHistory.txt" }]
      = [{ root := chars "src", filename := chars "20240115_MyTable05_HandHistory.txt" }]
    ∧ (get_info_from_filename (chars "20240115_MyTable05_HandHistory.txt")).is_tournament
        = some false
    ∧ (get_info_from_filename (chars "20240115_MyTable05_HandHistory.txt")).raw_key_suffix
        = some (chars "histories/raw/2024/01/15/cash/MyTable/05.txt") := by
  decide

/-- C5 (confirmed): sort_file skips a key already in the error ledger,
appends fresh error files to the error ledger without writing, and writes
fresh non-error files without touching any ledger. -/
theorem sort_file_pipeline (g : Option (List Char) → List Char) (st : SorterState)
    (f : FileDict) (E : List (List Char)) (hE : st.error_files = some E) :
    (E.contains (pyJoin f.root f.filename) = true → sort_file g st f = .ok st)
    ∧ (E.contains (pyJoin f.root f.filename) = false →
        (get_info_from_filename f.filename).is_error = true →
        sort_file g st f
          = .ok { st with error_files := some (E ++ [pyJoin f.root f.filename]) })
    ∧ (E.contains (pyJoin f.root f.filename) = false →
        (get_info_from_filename f.filename).is_error = false →
        sort_file g st f
          = .ok { st with written := st.written
              ++ [(pyJoin f.root f.filename,
                   g (get_info_from_filename f.filename).raw_key_suffix)] }) :=
  ⟨fun h => sort_file_skip g st f E hE h,
   fun h1 h2 => sort_file_error_case g st f E hE h1 h2,
   fun h1 h2 => sort_file_write_case g st f E hE h1 h2⟩

/-- C5, witness: a fresh play-money file is appended to the error ledger
and not written. -/
theorem sort_file_pipeline_witness :
    stEmpty.error_files = some []
    ∧ ([] : List (List Char)).contains
        (pyJoin (chars "history") (chars "20240120_play_(11111)_x.txt")) = false
    ∧ (get_info_from_filename (chars "20240120_play_(11111)_x.txt")).is_error = true
    ∧ sort_file gKey stEmpty
        { root := chars "history", filename := chars "20240120_play_(11111)_x.txt" }
      = .ok { stEmpty with
          error_files :=
            some ([] ++ [pyJoin (chars "history") (chars "20240120_play_(11111)_x.txt")]) } :=
  ⟨rfl, by decide, by decide,
   (sort_file_pipeline gKey stEmpty
      { root := chars "history", filename := chars "20240120_play_(11111)_x.txt" } [] rfl).2.1
     (by decide) (by decide)⟩

/-- C6 (confirmed): sort_new_file skips keys already in the session-sorted
ledger entirely; for a fresh key whose destination key exists it appends the
key to the session-sorted ledger without any transfer; otherwise Pipeline A
(sort_file) runs on the file. -/
theorem sort_new_file_pipeline (g : Option (List Char) → List Char) (st : SorterState)
    (f : FileDict) (S : List (List Char)) (hS : st.sorted_files = some S) :
    (S.contains (pyJoin f.root f.filename) = true → sort_new_file g st f = .ok st)
    ∧ (S.contains (pyJoin f.root f.filename) = false →
        st.raw_keys.contains (g (get_info_from_filename f.filename).raw_key_suffix) = true →
        sort_new_file g st f
          = .ok { st with
              checked := st.checked
                ++ [g (get_info_from_filename f.filename).raw_key_suffix,
                    g (get_info_from_filename f.filename).raw_key_suffix],
              sorted_files := some (S ++ [pyJoin f.root f.filename]) })
    ∧ (S.contains (pyJoin f.root f.filename) = false →
        st.raw_keys.contains (g (get_info_from_filename f.filename).raw_key_suffix) = false →
        sort_new_file g st f
          = sort_file g
              { st with checked := st.checked
                  ++ [g (get_info_from_filename f.filename).raw_key_suffix] } f) :=
  ⟨fun h => sort_new_file_skip g st f S hS h,
   fun h1 h2 => sort_new_file_reconcile g st f S hS h1 h2,
   fun h1 h2 => sort_new_file_delegate g st f S hS h1 h2⟩

/-- C6, witness: a fresh file whose destination key already exists is
recorded into the session-sorted ledger and nothing is written. -/
theorem sort_new_file_pipeline_witness :
    stGoodTable.sorted_files = some []
    ∧ ([] : List (List Char)).contains
        (pyJoin (chars "w") (chars "20240301_GoodTable07_HandHistory.txt")) = false
    ∧ stGoodTable.raw_keys.contains
        (gKey (get_info_from_filename (chars "20240301_GoodTable07_HandHistory.txt")).raw_key_suffix)
      = true
    ∧ sort_new_file gKey stGoodTable
        { root := chars "w", filename := chars "20240301_GoodTable07_HandHistory.txt" }
      = .ok { stGoodTable with
          checked := stGoodTable.checked
            ++ [gKey (get_info_from_filename
                  (chars "20240301_GoodTable07_HandHistory.txt")).raw_key_suffix,
                gKey (get_info_from_filename
                  (chars "20240301_GoodTable07_HandHistory.txt")).raw_key_suffix],
          sorted_files :=
            some ([] ++ [pyJoin (chars "w") (chars "20240301_GoodTable07_HandHistory.txt")]) } :=
  ⟨rfl, by decide, by decide,
   (sort_new_file_pipeline gKey stGoodTable
      { root := chars "w", filename := chars "20240301_GoodTable07_HandHistory.txt" } [] rfl).2.1
     (by decide) (by decide)⟩

/-- C7, counterexample: for an omaha filename matching the tournament
pattern, sort_new_file with the destination key present probes the
Destination Gateway (an existence check is performed) and records the key
into the session-sorted ledger; the error ledger is left unchanged. -/
theorem c7_counterexample :
    containsSub (chars "omaha") omahaFile.filename = true
    ∧ tournamentSearch omahaFile.filename = some (chars "987654321")
    ∧ sort_new_file gKey stOmaha omahaFile = .ok stOmahaResult
    ∧ stOmahaResult.error_files = some []
    ∧ stOmahaResult.checked ≠ [] := by
  decide

/-- C7 (corrected): for a filename containing omaha or Omaha that matches
the tournament pattern, neither pipeline ever writes the file;
sort_file routes the key to the error ledger (unless already there) with no
Destination Gateway access, while sort_new_file, when the key is not in the
session-sorted ledger, performs a destination existence check: if the
destination key exists it appends the key to the session-sorted ledger (not
the error ledger), and only if the destination key is absent does it
delegate to sort_file, which then routes the key to the error ledger. -/
theorem omaha_tournament_routing (g : Option (List Char) → List Char) (st : SorterState)
    (f : FileDict) (E S : List (List Char)) (tid : List Char)
    (hE : st.error_files = some E) (hS : st.sorted_files = some S)
    (homaha : (containsSub (chars "omaha") f.filename
        || containsSub (chars "Omaha") f.filename) = true)
    (_htour : tournamentSearch f.filename = some tid) :
    (E.contains (pyJoin f.root f.filename) = true → sort_file g st f = .ok st)
    ∧ (E.contains (pyJoin f.root f.filename) = false →
        sort_file g st f
          = .ok { st with error_files := some (E ++ [pyJoin f.root f.filename]) })
    ∧ (S.contains (pyJoin f.root f.filename) = true → sort_new_file g st f = .ok st)
    ∧ (S.contains (pyJoin f.root f.filename) = false →
        st.raw_keys.contains (g (get_info_from_filename f.filename).raw_key_suffix) = true →
        sort_new_file g st f
          = .ok { st with
              checked := st.checked
                ++ [g (get_info_from_filename f.filename).raw_key_suffix,
                    g (get_info_from_filename f.filename).raw_key_suffix],
              sorted_files := some (S ++ [pyJoin f.root f.filename]) })
    ∧ (S.contains (pyJoin f.root f.filename) = false →
        st.raw_keys.contains (g (get_info_from_filename f.filename).raw_key_suffix) = false →
        E.contains (pyJoin f.root f.filename) = false →
        sort_new_file g st f
          = .ok { st with
              checked := st.checked ++ [g (get_info_from_filename f.filename).raw_key_suffix],
              error_files := some (E ++ [pyJoin f.root f.filename]) }) := by
  have homa : (get_info_from_filename f.filename).is_omaha = true :=
    (get_info_fixed_fields f.filename).2.2.1.trans homaha
  have herr : (get_info_from_filename f.filename).is_error = true :=
    is_error_of_omaha f.filename homaha
  refine ⟨fun h => sort_file_skip g st f E hE h,
    fun h => sort_file_error_case g st f E hE h herr,
    fun h => sort_new_file_skip g st f S hS h,
    fun h1 h2 => sort_new_file_reconcile g st f S hS h1 h2,
    fun h1 h2 h3 => ?_⟩
  rw [sort_new_file_delegate g st f S hS h1 h2]
  rw [sort_file_error_case g
    { st with checked := st.checked ++ [g (get_info_from_filename f.filename).raw_key_suffix] }
    f E (by simpa using hE) h3 herr]

/-- C7, witness for the amended claim: with an empty destination the omaha
tournament file is routed by sort_new_file (after one existence probe) to
the error ledger. -/
theorem omaha_tournament_routing_witness :
    (containsSub (chars "omaha") omahaFile.filename
        || containsSub (chars "Omaha") omahaFile.filename) = true
    ∧ tournamentSearch omahaFile.filename = some (chars "987654321")
    ∧ sort_new_file gKey stEmpty omahaFile
      = .ok { stEmpty with
          checked := stEmpty.checked
            ++ [gKey (get_info_from_filename omahaFile.filename).raw_key_suffix],
          error_files := some ([] ++ [pyJoin omahaFile.root omahaFile.filename]) } :=
  ⟨by decide, by decide,
   (omaha_tournament_routing gKey stEmpty omahaFile [] [] (chars "987654321")
      rfl rfl (by decide) (by decide)).2.2.2.2 (by decide) (by decide) (by decide)⟩

/-- C8, counterexample: upload_files and upload_new_files keep only the
first ten entries of the reversed enumeration ([::-1][:10]), so with eleven
discovered files the first-listed file gets no task. -/
theorem c8_counterexample :
    ({ root := [], filename := chars "A.txt" } : FileDict) ∈ elevenFiles
    ∧ ({ root := [], filename := chars "A.txt" } : FileDict) ∉ upload_files_tasks elevenFiles
    ∧ ({ root := [], filename := chars "A.txt" } : FileDict) ∉ upload_new_files_tasks elevenFiles := by
  decide

/-- C8 (corrected): sort_files and sort_new_files submit one task per
discovered file, in reversed enumeration order, omitting none; upload_files
and upload_new_files also process the reversed enumeration but truncate it
to its first ten entries, so they attempt every discovered file only when
at most ten files are discovered. -/
theorem batch_enumeration (files : List FileDict) :
    sort_files_tasks files = files.reverse
    ∧ sort_new_files_tasks files = files.reverse
    ∧ upload_files_tasks files = files.reverse.take 10
    ∧ upload_new_files_tasks files = files.reverse.take 10
    ∧ (∀ f ∈ files, f ∈ sort_files_tasks files)
    ∧ (∀ f ∈ files, f ∈ sort_new_files_tasks files)
    ∧ (upload_files_tasks files).length = min 10 files.length
    ∧ (files.length ≤ 10 →
        upload_files_tasks files = files.reverse
        ∧ upload_new_files_tasks files = files.reverse) := by
  refine ⟨rfl, rfl, rfl, rfl, ?_, ?_, ?_, ?_⟩
  · intro f hf
    simpa [sort_files_tasks] using hf
  · intro f hf
    simpa [sort_new_files_tasks] using hf
  · simp [upload_files_tasks]
  · intro hlen
    constructor <;>
      simp [upload_files_tasks, upload_new_files_tasks,
        List.take_of_length_le, hlen, List.length_reverse]

/-- C8, witness: with two discovered files every file gets a task in every
batch operation. -/
theorem batch_enumeration_witness :
    ({ root := [], filename := chars "a.txt" } : FileDict) ∈ twoFiles
    ∧ twoFiles.length ≤ 10
    ∧ ({ root := [], filename := chars "a.txt" } : FileDict) ∈ sort_files_tasks twoFiles
    ∧ upload_files_tasks twoFiles = twoFiles.reverse :=
  ⟨by decide, by decide,
   (batch_enumeration twoFiles).2.2.2.2.1 _ (by decide),
   ((batch_enumeration twoFiles).2.2.2.2.2.2.2 (by decide)).1⟩

/-- C9 (confirmed): when upload_file reaches the transfer (the file is in
neither ledger, the error condition is false and the exists short-circuit
does not fire) and the transfer raises one of the two anticipated errors,
the exception is caught and the state — both ledgers included — is returned
exactly as it was, so the file will be retried on a later run. -/
theorem upload_failure_retry (st : S3State) (f : FileDict) (check_exists : Bool)
    (outcome : UploadOutcome) (U E : List (List Char))
    (hU : st.uploaded_files = some U) (hE : st.error_files = some E)
    (hcopy : ((if check_exists then U else []) ++ E).contains f.filename = false)
    (herr : ((s3_get_info_from_filename f.filename).is_play
        || (s3_get_info_from_filename f.filename).is_omaha
        || (s3_get_info_from_filename f.filename).is_positioning
        || pyNot (s3_get_info_from_filename f.filename).is_tournament) = false)
    (hex : (s3_check_file_exists st (s3_get_info_from_filename f.filename).destination_key
        && check_exists) = false)
    (hfail : outcome ≠ .success) :
    upload_file st f check_exists outcome = .ok st := by
  rcases outcome with _ | _ | _
  · exact absurd rfl hfail
  all_goals
    cases check_exists
    all_goals
      have hnm : f.filename ∉ (if true then U else ([] : List (List Char))) ++ E
          ∨ f.filename ∉ ([] : List (List Char)) ++ E := by
        first
        | exact Or.inl (by simpa using hcopy)
        | exact Or.inr (by simpa using hcopy)
      unfold upload_file readLedger
      rw [hU, hE]
      rcases hnm with hnm | hnm <;> simp_all

/-- C9, witness: a credentials failure while uploading a fresh tournament
file leaves the state untouched. -/
theorem upload_failure_retry_witness :
    s3StEmpty.uploaded_files = some []
    ∧ s3StEmpty.error_files = some []
    ∧ UploadOutcome.noCredentials ≠ UploadOutcome.success
    ∧ upload_file s3StEmpty { root := chars "dir", filename := chars "20240115_(55555)_Hand.txt" }
        true .noCredentials = .ok s3StEmpty :=
  ⟨rfl, rfl, by decide,
   upload_failure_retry s3StEmpty
     { root := chars "dir", filename := chars "20240115_(55555)_Hand.txt" }
     true .noCredentials [] [] rfl rfl (by decide) (by decide) (by decide) (by decide)⟩

/-- C10 (confirmed): reading a missing ledger raises file-not-found —
sort_file and sort_new_file propagate it before any state change — while a
first append creates the ledger with the single new line and a reset
creates it empty. -/
theorem missing_ledger_raises (g : Option (List Char) → List Char)
    (st st2 : SorterState) (f : FileDict) (k : List Char) :
    (st.error_files = none → get_error_files st = .error .fileNotFound
        ∧ sort_file g st f = .error .fileNotFound)
    ∧ (st.sorted_files = none → get_sorted_files st = .error .fileNotFound
        ∧ sort_new_file g st f = .error .fileNotFound)
    ∧ (st2.error_files = none → (add_to_error_files st2 k).error_files = some [k])
    ∧ (st2.sorted_files = none → (add_to_sorted_files st2 k).sorted_files = some [k])
    ∧ (reset_sorted_files st2).sorted_files = some [] := by
  refine ⟨?_, ?_, ?_, ?_, rfl⟩
  · intro h
    refine ⟨by simp [get_error_files, readLedger, h], ?_⟩
    simp [sort_file, get_error_files, readLedger, h]
  · intro h
    refine ⟨by simp [get_sorted_files, readLedger, h], ?_⟩
    simp [sort_new_file, get_sorted_files, readLedger, h]
  · intro h
    simp [add_to_error_files, h]
  · intro h
    simp [add_to_sorted_files, h]

/-- C10, witness: with no ledger files both pipelines raise, an append
creates the error ledger, and a reset creates the session ledger empty. -/
theorem missing_ledger_raises_witness :
    stNoLedgers.error_files = none
    ∧ stNoLedgers.sorted_files = none
    ∧ sort_file gKey stNoLedgers { root := chars "d", filename := chars "x.txt" }
        = .error .fileNotFound
    ∧ sort_new_file gKey stNoLedgers { root := chars "d", filename := chars "x.txt" }
        = .error .fileNotFound
    ∧ (add_to_error_files stNoLedgers (chars "k")).error_files = some [chars "k"]
    ∧ (reset_sorted_files stNoLedgers).sorted_files = some [] :=
  ⟨rfl, rfl,
   ((missing_ledger_raises gKey stNoLedgers stNoLedgers
      { root := chars "d", filename := chars "x.txt" } (chars "k")).1 rfl).2,
   ((missing_ledger_raises gKey stNoLedgers stNoLedgers
      { root := chars "d", filename := chars "x.txt" } (chars "k")).2.1 rfl).2,
   (missing_ledger_raises gKey stNoLedgers stNoLedgers
      { root := chars "d", filename := chars "x.txt" } (chars "k")).2.2.1 rfl,
   (missing_ledger_raises gKey stNoLedgers stNoLedgers
      { root := chars "d", filename := chars "x.txt" } (chars "k")).2.2.2.2⟩
